import Mathlib

/-!
# Verification of the TAOplicate copy-trading core

A shallow embedding of the copy-trading engine in `src/taoplicate.py`:
the sizing policy, the hysteresis safety governor, the trade mirror
executor (`mirror_stake` plus the surrounding dispatch in `run`), the
realtime (push) and poll (reconciliation) event-processing paths, the
summary report (`send_summary_embed`) and the configuration constructor
(`setup`).

Python floats are modelled as rationals (`ℚ`); the claims settled here
depend only on ordering, sign and exact field arithmetic, never on
binary rounding.  External effects (subprocess invocations of btcli,
SQLite inserts, Discord webhooks, log lines) are recorded structurally
in an `Effects` value; inputs obtained from the environment (the wallet
balance parsed from btcli output, the exit status of a btcli
invocation) are passed in as parameters.
-/

namespace Taoplicate

/-- The noise threshold from `run`: deltas with `abs delta < 1e-9` are ignored. -/
def EPS : ℚ := 1 / 1000000000

/-- The configuration dictionary produced by `setup` and consumed by `run`.
Webhook fields follow Python truthiness: the empty string means "not
configured" (`if not webhook: return`). `fixed_amount` is stored as the
already-parsed numeric value (`float(cfg["fixed_amount"])`). -/
structure Config where
  network : String
  my_wallet : String
  fixed_amount : ℚ
  hotkeys : List String
  weights : List ℚ
  poll_seconds : Nat
  trade_mode : String
  live_webhook : String
  summary_webhook : String
  low_balance : ℚ
  resume_balance : ℚ
deriving DecidableEq

/-- The in-memory summary dictionary `{"trades", "add_tao", "rem_tao", "subnets"}`.
The Python `set` of subnets is modelled as a duplicate-free list. -/
structure Summary where
  trades : Nat
  add_tao : ℚ
  rem_tao : ℚ
  subnets : List Nat
deriving DecidableEq

/-- One row of the SQLite `trades` table as inserted by `log_trade_to_db`
(the wall-clock timestamp column is omitted). -/
structure TradeRecord where
  action : String
  netuid : Nat
  hotkey : String
  amount : ℚ
  delta : ℚ
  balance : ℚ
deriving DecidableEq

/-- One `btcli stake add/remove` subprocess invocation built in `mirror_stake`. -/
structure StakeCmd where
  action : String
  netuid : Nat
  wallet : String
  amount : ℚ
  network : String
deriving DecidableEq

/-- The per-trade Discord embed built by `send_trade_embed`. -/
structure TradeEmbed where
  action : String
  netuid : Nat
  hotkey : String
  amount : ℚ
  delta : ℚ
deriving DecidableEq

/-- Externally visible effects of one processing step, recorded structurally. -/
structure Effects where
  stakeCmds : List StakeCmd
  balanceQueries : Nat
  dbRows : List TradeRecord
  tradeEmbeds : List TradeEmbed
  pauseNotes : Nat
  resumeNotes : Nat
  dryRunLogs : List (String × Nat × String × ℚ)
deriving DecidableEq

def Effects.empty : Effects :=
  { stakeCmds := [], balanceQueries := 0, dbRows := [], tradeEmbeds := [],
    pauseNotes := 0, resumeNotes := 0, dryRunLogs := [] }

def Effects.append (a b : Effects) : Effects :=
  { stakeCmds := a.stakeCmds ++ b.stakeCmds,
    balanceQueries := a.balanceQueries + b.balanceQueries,
    dbRows := a.dbRows ++ b.dbRows,
    tradeEmbeds := a.tradeEmbeds ++ b.tradeEmbeds,
    pauseNotes := a.pauseNotes + b.pauseNotes,
    resumeNotes := a.resumeNotes + b.resumeNotes,
    dryRunLogs := a.dryRunLogs ++ b.dryRunLogs }

instance : Append Effects := ⟨Effects.append⟩

/-- A realtime event taken off `event_queue`: `(action, netuid, hotkey, delta)`
as enqueued by `events_handler` from a StakeAdded/StakeRemoved chain event. -/
structure RtEvent where
  action : String
  netuid : Nat
  hk : String
  delta : ℚ
deriving DecidableEq

/-- Environment inputs consumed while processing one intent: the wallet
balance parsed by `get_wallet_balance_via_btcli`, and the exit status the
`btcli stake` subprocess would return (`run_btcli`). -/
structure Env where
  balance : ℚ
  rc : Int
deriving DecidableEq

/-- The persisted baseline `state["last_stakes"]`: a finite map from
`(netuid, hotkey)` to the last known stake, modelled as an association list. -/
abbrev StakeMap := List ((Nat × String) × ℚ)

def stakeGet : StakeMap → Nat × String → Option ℚ
  | [], _ => none
  | (k, v) :: rest, key => if k = key then some v else stakeGet rest key

def stakeSet : StakeMap → Nat × String → ℚ → StakeMap
  | [], key, v => [(key, v)]
  | (k, w) :: rest, key, v =>
    if k = key then (key, v) :: rest else (k, w) :: stakeSet rest key v

/-- The mutable state of the `run` loop: the `paused` flag, the persisted
baseline map, and the summary counters. -/
structure LoopState where
  paused : Bool
  last_stakes : StakeMap
  summary : Summary
deriving DecidableEq

/-- The sizing expression from `run` (lines 348 and 389):
`float(cfg["fixed_amount"]) if cfg["trade_mode"] == "fixed" else abs(delta) * weight`. -/
def sizeAmount (cfg : Config) (delta weight : ℚ) : ℚ :=
  if cfg.trade_mode = "fixed" then cfg.fixed_amount else |delta| * weight

/-- The action chosen for a poll-detected delta (lines 403 and 405-409):
`add` when `delta > 0`, else `remove`. -/
def actionOf (delta : ℚ) : String :=
  if 0 < delta then "add" else "remove"

/-- Outcome of the safety-governor check inlined at lines 351-360 and
391-400.  `pausedNote`/`resumedNote` mark that the corresponding
transition fired during this check (the `notify_text` calls). -/
structure GovResult where
  paused : Bool
  proceed : Bool
  pausedNote : Bool
  resumedNote : Bool
deriving DecidableEq

/-- The governor check: `if not paused and balance < low: paused = True`
then `if paused: if balance >= resume: paused = False else: continue`.
`proceed = false` models the `continue` that drops the intent. -/
def governorCheck (paused : Bool) (balance low resume : ℚ) : GovResult :=
  let entering : Bool := if paused = false ∧ balance < low then true else false
  let paused1 := paused || entering
  if paused1 then
    if resume ≤ balance then
      { paused := false, proceed := true, pausedNote := entering, resumedNote := true }
    else
      { paused := true, proceed := false, pausedNote := entering, resumedNote := false }
  else
    { paused := false, proceed := true, pausedNote := false, resumedNote := false }

/-- Effects of one governor check: one balance query (btcli invocation),
plus the pause/resume notifications, delivered only when a live webhook
is configured (`notify_text` returns early on a falsy webhook). -/
def govEffects (cfg : Config) (g : GovResult) : Effects :=
  { Effects.empty with
    balanceQueries := 1,
    pauseNotes := if g.pausedNote ∧ cfg.live_webhook ≠ "" then 1 else 0,
    resumeNotes := if g.resumedNote ∧ cfg.live_webhook ≠ "" then 1 else 0 }

/-- `mirror_stake` (lines 157-175).  Returns the updated summary counters
and the effects.  The exit status `rc` of the `btcli stake` subprocess is
bound by the source (`rc, out, err = run_btcli(cmd)`) but never inspected
afterwards, which the embedding preserves: `rc` does not occur in the body. -/
def mirror_stake (action : String) (netuid : Nat) (cfg : Config) (amount : ℚ)
    (hk : String) (delta : ℚ) (summary : Summary) (rc : Int) : Summary × Effects :=
  if amount ≤ 0 then (summary, Effects.empty)
  else
    let eff : Effects :=
      { Effects.empty with
        stakeCmds := [{ action := action, netuid := netuid, wallet := cfg.my_wallet,
                        amount := amount, network := cfg.network }],
        tradeEmbeds :=
          if cfg.live_webhook = "" then []
          else [{ action := action, netuid := netuid, hotkey := hk,
                  amount := amount, delta := delta }] }
    let summary1 : Summary :=
      { trades := summary.trades + 1,
        add_tao := if action = "add" then summary.add_tao + amount else summary.add_tao,
        rem_tao := if action = "add" then summary.rem_tao else summary.rem_tao + amount,
        subnets := if netuid ∈ summary.subnets then summary.subnets
                   else summary.subnets ++ [netuid] }
    (summary1, eff)

/-- The execution tail shared by both processing paths (lines 362-366 and
402-410): in dry-run mode only a log line is produced; otherwise
`mirror_stake` runs and `log_trade_to_db` appends a row unconditionally. -/
def execIntent (cfg : Config) (dry_run : Bool) (action : String) (netuid : Nat)
    (hk : String) (amount delta balance : ℚ) (summary : Summary) (rc : Int) :
    Summary × Effects :=
  if dry_run then
    (summary, { Effects.empty with dryRunLogs := [(action, netuid, hk, amount)] })
  else
    let r := mirror_stake action netuid cfg amount hk delta summary rc
    (r.1, r.2 ++ { Effects.empty with dbRows :=
      [{ action := action, netuid := netuid, hotkey := hk,
         amount := amount, delta := delta, balance := balance }] })

/-- Processing of one realtime event from `event_queue` (lines 342-366):
filter on watched hotkeys, size the intent, run the governor check, then
dispatch to the execution tail.  Note that this path never consults or
updates `state["last_stakes"]`. -/
def processRealtimeEvent (cfg : Config) (dry_run : Bool) (s : LoopState)
    (ev : RtEvent) (env : Env) : LoopState × Effects :=
  if ev.hk ∈ cfg.hotkeys then
    let i := cfg.hotkeys.indexOf ev.hk
    let weight := cfg.weights.getD i 0
    let amount := sizeAmount cfg ev.delta weight
    let g := governorCheck s.paused env.balance cfg.low_balance cfg.resume_balance
    if g.proceed then
      let r := execIntent cfg dry_run ev.action ev.netuid ev.hk amount ev.delta
                 env.balance s.summary env.rc
      ({ paused := g.paused, last_stakes := s.last_stakes, summary := r.1 },
       govEffects cfg g ++ r.2)
    else
      ({ s with paused := g.paused }, govEffects cfg g)
  else
    (s, Effects.empty)

/-- Processing of one poll observation `(netuid, i, hk, stake_val)` where
`i` is the index of `hk` in `cfg.hotkeys` (lines 374-410): the baseline
entry is overwritten first; a missing baseline or a sub-epsilon delta
ends the iteration with no further effect; otherwise the intent is sized,
governed and dispatched with action `actionOf delta`. -/
def processPollObs (cfg : Config) (dry_run : Bool) (s : LoopState)
    (netuid i : Nat) (hk : String) (stake_val : ℚ) (env : Env) :
    LoopState × Effects :=
  let last := stakeGet s.last_stakes (netuid, hk)
  let stakes1 := stakeSet s.last_stakes (netuid, hk) stake_val
  match last with
  | none => ({ s with last_stakes := stakes1 }, Effects.empty)
  | some lastVal =>
    let delta := stake_val - lastVal
    if |delta| < EPS then ({ s with last_stakes := stakes1 }, Effects.empty)
    else
      let weight := cfg.weights.getD i 0
      let amount := sizeAmount cfg delta weight
      let g := governorCheck s.paused env.balance cfg.low_balance cfg.resume_balance
      if g.proceed then
        let r := execIntent cfg dry_run (actionOf delta) netuid hk amount delta
                   env.balance s.summary env.rc
        ({ paused := g.paused, last_stakes := stakes1, summary := r.1 },
         govEffects cfg g ++ r.2)
      else
        ({ paused := g.paused, last_stakes := stakes1, summary := s.summary },
         govEffects cfg g)

/-- Draining of the realtime queue: `while not event_queue.empty(): ...`,
each event paired with the environment inputs its processing consumes. -/
def processRealtimeEvents (cfg : Config) (dry_run : Bool) :
    LoopState → List (RtEvent × Env) → LoopState × Effects
  | s, [] => (s, Effects.empty)
  | s, (ev, env) :: rest =>
    let r1 := processRealtimeEvent cfg dry_run s ev env
    let r2 := processRealtimeEvents cfg dry_run r1.1 rest
    (r2.1, r1.2 ++ r2.2)

/-- The fields of the daily-summary Discord embed built by
`send_summary_embed` (lines 177-219). -/
structure SummaryReport where
  trades : Nat
  subnetsTouched : Nat
  total_add : ℚ
  total_rem : ℚ
  net : ℚ
  balance : ℚ
  trend : ℚ
deriving DecidableEq

/-- `send_summary_embed`: returns `none` when no summary webhook is
configured (nothing is emitted or persisted), else the report together
with the balance newly persisted to `last_balance.json`.  `trendFile` is
the previously persisted balance; `none` covers both a missing and an
unreadable file, in which case the source leaves `last_balance = 0.0`. -/
def send_summary_embed (cfg : Config) (summary : Summary) (balance : ℚ)
    (trendFile : Option ℚ) : Option (SummaryReport × ℚ) :=
  if cfg.summary_webhook = "" then none
  else
    let last_balance := trendFile.getD 0
    let delta_bal := balance - last_balance
    some ({ trades := summary.trades,
            subnetsTouched := summary.subnets.length,
            total_add := summary.add_tao,
            total_rem := summary.rem_tao,
            net := summary.add_tao - summary.rem_tao,
            balance := balance,
            trend := delta_bal }, balance)

/-- `setup` (lines 268-309) restricted to the configuration it constructs
and saves.  The source performs no validation whatsoever and saves the
dictionary unconditionally; the `Option` result models acceptance versus
rejection of the entered configuration, and the source always accepts. -/
def setup (network my_wallet : String) (amt : ℚ) (hotkeys : List String)
    (weights : List ℚ) (poll : Nat) (mode : String)
    (live_webhook summary_webhook : String) (low_bal resume_bal : ℚ) :
    Option Config :=
  some { network := network, my_wallet := my_wallet, fixed_amount := amt,
         hotkeys := hotkeys, weights := weights, poll_seconds := poll,
         trade_mode := mode, live_webhook := live_webhook,
         summary_webhook := summary_webhook,
         low_balance := low_bal, resume_balance := resume_bal }

/-- Concrete fixture: a fixed-mode configuration with one watched hotkey. -/
def cfgFixed : Config :=
  { network := "finney", my_wallet := "w", fixed_amount := 1,
    hotkeys := ["hkA"], weights := [2], poll_seconds := 30,
    trade_mode := "fixed", live_webhook := "hook", summary_webhook := "shook",
    low_balance := 1, resume_balance := 2 }

/-- Concrete fixture: the same configuration in proportional mode. -/
def cfgProp : Config := { cfgFixed with trade_mode := "proportional" }

/-- Concrete fixture: fixed amount zero, so every intent sizes to 0. -/
def cfgZeroAmt : Config := { cfgFixed with fixed_amount := 0 }

/-- Concrete fixture: thresholds violating the documented contract
(`resume_balance < low_balance`). -/
def cfgBad : Config := { cfgFixed with low_balance := 2, resume_balance := 1 }

/-- Concrete fixture: empty summary counters. -/
def summary0 : Summary := { trades := 0, add_tao := 0, rem_tao := 0, subnets := [] }

/-- Concrete fixture: the active loop state with an empty baseline. -/
def state0 : LoopState := { paused := false, last_stakes := [], summary := summary0 }

/-- Concrete fixture: the paused loop state with an empty baseline. -/
def statePaused : LoopState := { paused := true, last_stakes := [], summary := summary0 }

/-- Concrete fixture: the active loop state with baseline 10 recorded for
key `(7, "hkA")`. -/
def stateActiveBase : LoopState :=
  { paused := false, last_stakes := [((7, "hkA"), 10)], summary := summary0 }

/-- Concrete fixture: the paused loop state with baseline 10 recorded for
key `(7, "hkA")`. -/
def statePausedBase : LoopState :=
  { paused := true, last_stakes := [((7, "hkA"), 10)], summary := summary0 }

/-! ## Component lemmas for effect accumulation -/

theorem Effects.append_stakeCmds (a b : Effects) :
    (a ++ b).stakeCmds = a.stakeCmds ++ b.stakeCmds := rfl

theorem Effects.append_dbRows (a b : Effects) :
    (a ++ b).dbRows = a.dbRows ++ b.dbRows := rfl

theorem Effects.append_tradeEmbeds (a b : Effects) :
    (a ++ b).tradeEmbeds = a.tradeEmbeds ++ b.tradeEmbeds := rfl

theorem Effects.append_dryRunLogs (a b : Effects) :
    (a ++ b).dryRunLogs = a.dryRunLogs ++ b.dryRunLogs := rfl

theorem Effects.empty_append (b : Effects) : Effects.empty ++ b = b := by
  show Effects.append Effects.empty b = b
  simp [Effects.append, Effects.empty]

/-! ## Component lemmas for the baseline map -/

theorem stakeGet_stakeSet (m : StakeMap) (k : Nat × String) (v : ℚ) :
    stakeGet (stakeSet m k v) k = some v := by
  induction m with
  | nil => simp [stakeSet, stakeGet]
  | cons head tail ih =>
    obtain ⟨k2, w⟩ := head
    by_cases hk : k2 = k
    · simp [stakeSet, stakeGet, hk]
    · simp [stakeSet, stakeGet, hk, ih]

theorem stakeSet_stakeSet (m : StakeMap) (k : Nat × String) (v w : ℚ) :
    stakeSet (stakeSet m k v) k w = stakeSet m k w := by
  induction m with
  | nil => simp [stakeSet]
  | cons head tail ih =>
    obtain ⟨k2, u⟩ := head
    by_cases hk : k2 = k
    · simp [stakeSet, hk]
    · simp [stakeSet, hk, ih]

/-! ## C4: sizing policy and action choice -/

/-- C4: for every detected delta `d` and weight `w`, `fixed` sizing returns
the configured constant independent of `d`, `proportional` sizing returns
exactly `|d| * w`, and the chosen action is `add` when `d > 0` and
`remove` otherwise. -/
theorem sizing_policy_correct (cfg : Config) (d w : ℚ) :
    (cfg.trade_mode = "fixed" → sizeAmount cfg d w = cfg.fixed_amount) ∧
    (cfg.trade_mode = "proportional" → sizeAmount cfg d w = |d| * w) ∧
    (0 < d → actionOf d = "add") ∧
    (¬ 0 < d → actionOf d = "remove") := by
  refine ⟨fun h => ?_, fun h => ?_, fun h => ?_, fun h => ?_⟩
  · simp [sizeAmount, h]
  · rw [sizeAmount, h, if_neg (by decide)]
  · simp [actionOf, h]
  · simp [actionOf, h]

/-- Witness for C4 at concrete inputs: fixed mode with delta 3 returns the
constant 1; proportional mode with delta -3 and weight 2 returns 6; the
action for +3 is `add` and for -3 is `remove`. -/
theorem sizing_policy_correct_witness :
    (sizeAmount cfgFixed 3 2 = cfgFixed.fixed_amount ∧
     sizeAmount cfgProp (-3) 2 = |(-3 : ℚ)| * 2) ∧
    (actionOf 3 = "add" ∧ actionOf (-3) = "remove") :=
  ⟨⟨(sizing_policy_correct cfgFixed 3 2).1 rfl,
    (sizing_policy_correct cfgProp (-3) 2).2.1 rfl⟩,
   ⟨(sizing_policy_correct cfgFixed 3 2).2.2.1 (by norm_num),
    (sizing_policy_correct cfgFixed (-3) 2).2.2.2 (by norm_num)⟩⟩

/-! ## C7: threshold configuration is never validated -/

/-- C7 counterexample: `setup` accepts a configuration whose resume
threshold (1) is strictly below its low-balance threshold (2); nothing
rejects it and no validity check exists, contradicting the claim that
every accepted configuration satisfies `resume_balance ≥ low_balance`. -/
theorem setup_accepts_flapping_thresholds :
    setup "finney" "w" 1 ["hkA"] [1] 30 "fixed" "" "" 2 1
      = some { network := "finney", my_wallet := "w", fixed_amount := 1,
               hotkeys := ["hkA"], weights := [1], poll_seconds := 30,
               trade_mode := "fixed", live_webhook := "", summary_webhook := "",
               low_balance := 2, resume_balance := 1 } ∧
    ((1 : ℚ) < 2) :=
  ⟨rfl, by norm_num⟩

/-- C7 amended: `setup` performs no validation at all — every input,
including one with `resume_bal < low_bal`, is accepted and saved with the
thresholds exactly as entered. -/
theorem setup_never_rejects (network my_wallet : String) (amt : ℚ)
    (hotkeys : List String) (weights : List ℚ) (poll : Nat) (mode : String)
    (lw sw : String) (low_bal resume_bal : ℚ) :
    setup network my_wallet amt hotkeys weights poll mode lw sw low_bal resume_bal
      = some { network := network, my_wallet := my_wallet, fixed_amount := amt,
               hotkeys := hotkeys, weights := weights, poll_seconds := poll,
               trade_mode := mode, live_webhook := lw, summary_webhook := sw,
               low_balance := low_bal, resume_balance := resume_bal } := rfl

/-! ## C1: the executor never classifies the tool's exit status -/

/-- C1 counterexample: processing an approved, non-dry-run intent whose
`btcli stake` invocation exits with the non-zero status 1 still appends a
TradeRecord, still increments the trade counter and still emits the trade
embed, contradicting "on non-zero exit ... no TradeRecord is written and
no counter is incremented". -/
theorem executor_ignores_nonzero_exit :
    ((1 : Int) ≠ 0) ∧
    (execIntent cfgFixed false "add" 7 "hkA" 1 2 5 summary0 1).2.dbRows.length = 1 ∧
    (execIntent cfgFixed false "add" 7 "hkA" 1 2 5 summary0 1).1.trades = 1 ∧
    (execIntent cfgFixed false "add" 7 "hkA" 1 2 5 summary0 1).2.tradeEmbeds.length = 1 := by
  refine ⟨by decide, ?_, ?_, ?_⟩
  all_goals norm_num [execIntent, mirror_stake, cfgFixed, summary0, Effects.empty,
    Effects.append_dbRows, Effects.append_tradeEmbeds]
  all_goals decide

/-- C1 amended: for every approved, non-dry-run intent with positive
amount, the executor appends exactly one TradeRecord, invokes the tool
once, increments the trade counter and (when a live webhook is
configured) emits the trade embed, *regardless* of the tool's exit
status: the whole outcome is independent of `rc`, because the source
binds the exit status but never inspects it. -/
theorem executor_outcome_independent_of_exit_status (cfg : Config)
    (action : String) (netuid : Nat) (hk : String) (amount delta balance : ℚ)
    (summary : Summary) (rc : Int) (hpos : 0 < amount) :
    execIntent cfg false action netuid hk amount delta balance summary rc
      = execIntent cfg false action netuid hk amount delta balance summary 0 ∧
    (execIntent cfg false action netuid hk amount delta balance summary rc).2.dbRows
      = [{ action := action, netuid := netuid, hotkey := hk, amount := amount,
           delta := delta, balance := balance }] ∧
    (execIntent cfg false action netuid hk amount delta balance summary rc).2.stakeCmds
      = [{ action := action, netuid := netuid, wallet := cfg.my_wallet,
           amount := amount, network := cfg.network }] ∧
    (execIntent cfg false action netuid hk amount delta balance summary rc).1.trades
      = summary.trades + 1 ∧
    (cfg.live_webhook ≠ "" →
      (execIntent cfg false action netuid hk amount delta balance summary rc).2.tradeEmbeds
        = [{ action := action, netuid := netuid, hotkey := hk,
             amount := amount, delta := delta }]) := by
  have hng : ¬ amount ≤ 0 := not_le.mpr hpos
  refine ⟨rfl, ?_, ?_, ?_, fun hw => ?_⟩
  · simp [execIntent, mirror_stake, hng, Effects.empty, Effects.append_dbRows]
  · simp [execIntent, mirror_stake, hng, Effects.empty, Effects.append_stakeCmds]
  · simp [execIntent, mirror_stake, hng]
  · simp [execIntent, mirror_stake, hng, hw, Effects.empty, Effects.append_tradeEmbeds]

/-- Witness for the amended C1 at a concrete failing exit status (rc = 9). -/
theorem executor_outcome_independent_of_exit_status_witness :
    (execIntent cfgFixed false "remove" 4 "hkA" 1 2 5 summary0 9).2.dbRows
      = [{ action := "remove", netuid := 4, hotkey := "hkA", amount := 1,
           delta := 2, balance := 5 }] :=
  (executor_outcome_independent_of_exit_status cfgFixed "remove" 4 "hkA" 1 2 5
    summary0 9 (by norm_num)).2.1

/-! ## C2: amount ≤ 0 suppresses the tool but not the ledger row -/

/-- C2 counterexample: a non-dry-run realtime intent whose computed amount
is 0 (fixed mode, `fixed_amount = 0`) invokes no tool, emits no embed and
increments no counter, yet a TradeRecord row *is* written, contradicting
"no TradeRecord row". -/
theorem zero_amount_intent_still_writes_row :
    sizeAmount cfgZeroAmt 2 2 = 0 ∧
    (processRealtimeEvent cfgZeroAmt false state0 ⟨"add", 7, "hkA", 2⟩ ⟨5, 0⟩).2.stakeCmds = [] ∧
    (processRealtimeEvent cfgZeroAmt false state0 ⟨"add", 7, "hkA", 2⟩ ⟨5, 0⟩).2.tradeEmbeds = [] ∧
    (processRealtimeEvent cfgZeroAmt false state0 ⟨"add", 7, "hkA", 2⟩ ⟨5, 0⟩).1.summary.trades = 0 ∧
    (processRealtimeEvent cfgZeroAmt false state0 ⟨"add", 7, "hkA", 2⟩ ⟨5, 0⟩).2.dbRows.length = 1 := by
  refine ⟨?_, ?_, ?_, ?_, ?_⟩ <;>
    norm_num [processRealtimeEvent, execIntent, mirror_stake, governorCheck, govEffects,
      sizeAmount, cfgZeroAmt, cfgFixed, state0, summary0, Effects.empty,
      Effects.append_stakeCmds, Effects.append_tradeEmbeds, Effects.append_dbRows]

/-- C2 amended: for every non-dry-run intent reaching the execution stage
with computed amount ≤ 0, the tool is not invoked, no trade embed is
emitted and the summary counters are untouched, but one TradeRecord row
is still written; and every intent reaching the execution stage
(non-dry-run) writes exactly one TradeRecord row regardless of amount. -/
theorem nonpositive_amount_effects (cfg : Config) (action : String)
    (netuid : Nat) (hk : String) (amount delta balance : ℚ) (summary : Summary)
    (rc : Int) (hle : amount ≤ 0) :
    (execIntent cfg false action netuid hk amount delta balance summary rc).2.stakeCmds = [] ∧
    (execIntent cfg false action netuid hk amount delta balance summary rc).2.tradeEmbeds = [] ∧
    (execIntent cfg false action netuid hk amount delta balance summary rc).1 = summary ∧
    (execIntent cfg false action netuid hk amount delta balance summary rc).2.dbRows
      = [{ action := action, netuid := netuid, hotkey := hk, amount := amount,
           delta := delta, balance := balance }] ∧
    (∀ a : ℚ,
      (execIntent cfg false action netuid hk a delta balance summary rc).2.dbRows.length = 1) := by
  refine ⟨?_, ?_, ?_, ?_, fun a => ?_⟩
  · simp [execIntent, mirror_stake, hle, Effects.empty, Effects.append_stakeCmds]
  · simp [execIntent, mirror_stake, hle, Effects.empty, Effects.append_tradeEmbeds]
  · simp [execIntent, mirror_stake, hle]
  · simp [execIntent, mirror_stake, hle, Effects.empty, Effects.append_dbRows]
  · by_cases h : a ≤ 0 <;>
      simp [execIntent, mirror_stake, h, Effects.empty, Effects.append_dbRows]

/-- Witness for the amended C2 at amount 0. -/
theorem nonpositive_amount_effects_witness :
    (execIntent cfgFixed false "add" 7 "hkA" 0 2 5 summary0 0).2.stakeCmds = [] ∧
    (execIntent cfgFixed false "add" 7 "hkA" 0 2 5 summary0 0).2.dbRows
      = [{ action := "add", netuid := 7, hotkey := "hkA", amount := 0,
           delta := 2, balance := 5 }] :=
  ⟨(nonpositive_amount_effects cfgFixed "add" 7 "hkA" 0 2 5 summary0 0 (by norm_num)).1,
   (nonpositive_amount_effects cfgFixed "add" 7 "hkA" 0 2 5 summary0 0 (by norm_num)).2.2.2.1⟩

/-! ## C3: first observation per key -/

/-- C3 counterexample: with an empty baseline, the very first event for
key `(7, "hkA")` arriving over the push channel produces a trade (a
TradeRecord is written) and does *not* set a baseline, contradicting
"the first observation ever recorded for a given (partition, account)
key only sets the baseline and produces no delta and no trade" for the
push channel. -/
theorem push_first_observation_trades :
    stakeGet state0.last_stakes (7, "hkA") = none ∧
    (processRealtimeEvent cfgFixed false state0 ⟨"add", 7, "hkA", 2⟩ ⟨5, 0⟩).2.dbRows.length = 1 ∧
    stakeGet (processRealtimeEvent cfgFixed false state0 ⟨"add", 7, "hkA", 2⟩ ⟨5, 0⟩).1.last_stakes
      (7, "hkA") = none := by
  refine ⟨rfl, ?_, ?_⟩
  all_goals norm_num [processRealtimeEvent, execIntent, mirror_stake, governorCheck,
    govEffects, sizeAmount, cfgFixed, state0, summary0, Effects.empty,
    Effects.append_dbRows, stakeGet]

/-- C3 amended: only on the poll channel does the first observation for a
`(partition, account)` key merely set the baseline: a poll observation
with no recorded baseline stores the observed value and produces no
effect at all.  (Push-channel events never consult the baseline and can
trade on first observation.) -/
theorem poll_first_observation_sets_baseline_only (cfg : Config) (dry_run : Bool)
    (s : LoopState) (netuid i : Nat) (hk : String) (v : ℚ) (env : Env)
    (hnone : stakeGet s.last_stakes (netuid, hk) = none) :
    processPollObs cfg dry_run s netuid i hk v env
      = ({ s with last_stakes := stakeSet s.last_stakes (netuid, hk) v },
         Effects.empty) := by
  simp [processPollObs, hnone]

/-- Witness for the amended C3: first poll observation of stake 10 for
`(7, "hkA")` on the empty baseline. -/
theorem poll_first_observation_sets_baseline_only_witness :
    processPollObs cfgFixed false state0 7 0 "hkA" 10 ⟨5, 0⟩
      = ({ state0 with last_stakes := stakeSet state0.last_stakes (7, "hkA") 10 },
         Effects.empty) :=
  poll_first_observation_sets_baseline_only cfgFixed false state0 7 0 "hkA" 10 ⟨5, 0⟩ rfl

/-! ## C8: dry-run performs no mutating side effect -/

/-- In dry-run mode the execution tail only logs the intended action. -/
theorem execIntent_dry_run (cfg : Config) (action : String) (netuid : Nat)
    (hk : String) (amount delta balance : ℚ) (summary : Summary) (rc : Int) :
    execIntent cfg true action netuid hk amount delta balance summary rc
      = (summary, { Effects.empty with dryRunLogs := [(action, netuid, hk, amount)] }) := rfl

/-- Dry-run frame for the realtime path: state untouched except the
governor flag, and no mutating effect recorded. -/
theorem dry_run_realtime_frame (cfg : Config) (s : LoopState) (ev : RtEvent)
    (env : Env) :
    ((processRealtimeEvent cfg true s ev env).1.last_stakes = s.last_stakes ∧
     (processRealtimeEvent cfg true s ev env).1.summary = s.summary) ∧
    ((processRealtimeEvent cfg true s ev env).2.stakeCmds = [] ∧
     (processRealtimeEvent cfg true s ev env).2.dbRows = [] ∧
     (processRealtimeEvent cfg true s ev env).2.tradeEmbeds = []) := by
  by_cases hm : ev.hk ∈ cfg.hotkeys <;>
    by_cases hg : (governorCheck s.paused env.balance cfg.low_balance
        cfg.resume_balance).proceed = true <;>
      simp [processRealtimeEvent, execIntent_dry_run, govEffects, hm, hg, Effects.empty,
        Effects.append_stakeCmds, Effects.append_dbRows, Effects.append_tradeEmbeds]

/-- Dry-run frame for the poll path: counters untouched and no mutating
effect recorded (the baseline entry is still overwritten, as in the
source). -/
theorem dry_run_poll_frame (cfg : Config) (s : LoopState) (netuid i : Nat)
    (hk : String) (v : ℚ) (env : Env) :
    (processPollObs cfg true s netuid i hk v env).1.summary = s.summary ∧
    (processPollObs cfg true s netuid i hk v env).2.stakeCmds = [] ∧
    (processPollObs cfg true s netuid i hk v env).2.dbRows = [] ∧
    (processPollObs cfg true s netuid i hk v env).2.tradeEmbeds = [] := by
  rcases hlast : stakeGet s.last_stakes (netuid, hk) with _ | lastVal
  · simp [processPollObs, hlast, Effects.empty]
  · by_cases hn : |v - lastVal| < EPS
    · simp [processPollObs, hlast, hn, Effects.empty]
    · by_cases hg : (governorCheck s.paused env.balance cfg.low_balance
          cfg.resume_balance).proceed = true <;>
        simp [processPollObs, execIntent_dry_run, govEffects, hlast, hn, hg, Effects.empty,
          Effects.append_stakeCmds, Effects.append_dbRows, Effects.append_tradeEmbeds]

/-- C8: in dry-run mode, processing a delta on either channel invokes no
`btcli stake` subprocess, writes no ledger row, emits no trade embed and
increments no summary counter; on the realtime path the baseline is not
touched either.  (The balance query of the governor still occurs, as the
source itself documents.) -/
theorem dry_run_performs_no_mutation (cfg : Config) (s : LoopState) (ev : RtEvent)
    (env : Env) (netuid i : Nat) (hk : String) (v : ℚ) (env2 : Env) :
    (processRealtimeEvent cfg true s ev env).2.stakeCmds = [] ∧
    (processRealtimeEvent cfg true s ev env).2.dbRows = [] ∧
    (processRealtimeEvent cfg true s ev env).2.tradeEmbeds = [] ∧
    (processRealtimeEvent cfg true s ev env).1.summary = s.summary ∧
    (processRealtimeEvent cfg true s ev env).1.last_stakes = s.last_stakes ∧
    (processPollObs cfg true s netuid i hk v env2).2.stakeCmds = [] ∧
    (processPollObs cfg true s netuid i hk v env2).2.dbRows = [] ∧
    (processPollObs cfg true s netuid i hk v env2).2.tradeEmbeds = [] ∧
    (processPollObs cfg true s netuid i hk v env2).1.summary = s.summary :=
  ⟨(dry_run_realtime_frame cfg s ev env).2.1,
   (dry_run_realtime_frame cfg s ev env).2.2.1,
   (dry_run_realtime_frame cfg s ev env).2.2.2,
   (dry_run_realtime_frame cfg s ev env).1.2,
   (dry_run_realtime_frame cfg s ev env).1.1,
   (dry_run_poll_frame cfg s netuid i hk v env2).2.1,
   (dry_run_poll_frame cfg s netuid i hk v env2).2.2.1,
   (dry_run_poll_frame cfg s netuid i hk v env2).2.2.2,
   (dry_run_poll_frame cfg s netuid i hk v env2).1⟩

/-! ## C9: the realtime path neither reads nor writes the baseline -/

/-- C9: processing a push-channel event leaves `last_stakes` exactly as it
was (at every key), and the entire outcome — governor flag, summary and
all effects — is independent of the baseline contents, i.e. the realtime
path never reads or writes `state["last_stakes"]`.  Consequently a stake
change mirrored from the push channel leaves the persisted baseline
stale, so the next poll-reconciliation pass over the same key still
compares against the old value and re-detects the same delta. -/
theorem realtime_ignores_baseline (cfg : Config) (dry_run : Bool) (p : Bool)
    (st st2 : StakeMap) (summary : Summary) (ev : RtEvent) (env : Env)
    (key : Nat × String) :
    (processRealtimeEvent cfg dry_run ⟨p, st, summary⟩ ev env).1.last_stakes = st ∧
    stakeGet (processRealtimeEvent cfg dry_run ⟨p, st, summary⟩ ev env).1.last_stakes key
      = stakeGet st key ∧
    (processRealtimeEvent cfg dry_run ⟨p, st2, summary⟩ ev env).1.paused
      = (processRealtimeEvent cfg dry_run ⟨p, st, summary⟩ ev env).1.paused ∧
    (processRealtimeEvent cfg dry_run ⟨p, st2, summary⟩ ev env).1.summary
      = (processRealtimeEvent cfg dry_run ⟨p, st, summary⟩ ev env).1.summary ∧
    (processRealtimeEvent cfg dry_run ⟨p, st2, summary⟩ ev env).2
      = (processRealtimeEvent cfg dry_run ⟨p, st, summary⟩ ev env).2 := by
  by_cases hm : ev.hk ∈ cfg.hotkeys <;>
    by_cases hg : (governorCheck p env.balance cfg.low_balance
        cfg.resume_balance).proceed = true <;>
      simp [processRealtimeEvent, hm, hg]

/-! ## C5: while paused below the resume threshold, intents are dropped -/

/-- One realtime step taken in the paused state with a balance below the
resume threshold leaves the loop state unchanged and records no trade
effect of any kind: the intent is dropped outright. -/
theorem paused_step_drops (cfg : Config) (dry_run : Bool) (s : LoopState)
    (ev : RtEvent) (env : Env) (hp : s.paused = true)
    (hb : env.balance < cfg.resume_balance) :
    (processRealtimeEvent cfg dry_run s ev env).1 = s ∧
    (processRealtimeEvent cfg dry_run s ev env).2.stakeCmds = [] ∧
    (processRealtimeEvent cfg dry_run s ev env).2.dbRows = [] ∧
    (processRealtimeEvent cfg dry_run s ev env).2.tradeEmbeds = [] ∧
    (processRealtimeEvent cfg dry_run s ev env).2.dryRunLogs = [] := by
  obtain ⟨sp, sst, ssum⟩ := s
  obtain rfl : sp = true := hp
  have hg : governorCheck true env.balance cfg.low_balance cfg.resume_balance
      = { paused := true, proceed := false, pausedNote := false, resumedNote := false } := by
    simp [governorCheck, not_le.mpr hb]
  by_cases hm : ev.hk ∈ cfg.hotkeys <;>
    simp [processRealtimeEvent, hm, hg, govEffects, Effects.empty]

/-- C5: once the governor is PAUSED, no intent on either channel executes
while each balance query stays below `resume_balance`.  Realtime channel:
a whole prefix of such intents contributes no trade command, no ledger
row, no embed and no dry-run log, and leaves the state exactly as it was,
so the run behaves as if those intents had never arrived — dropped, not
queued.  Poll channel: such an intent is likewise dropped with no trade
effect and no counter change, but its baseline entry is still overwritten
with the observed stake, so re-observing the same stake after the drop
yields no delta at all: the missed change is permanently unmirrored and
never retroactively executed after resumption. -/
theorem paused_governor_drops_intents (cfg : Config) (dry_run : Bool)
    (s : LoopState) (pre rest : List (RtEvent × Env)) (netuid i : Nat)
    (hk : String) (l v : ℚ) (env2 env3 : Env)
    (hp : s.paused = true)
    (hlow : ∀ p ∈ pre, p.2.balance < cfg.resume_balance)
    (hlast : stakeGet s.last_stakes (netuid, hk) = some l)
    (hdelta : ¬ |v - l| < EPS)
    (hb2 : env2.balance < cfg.resume_balance) :
    ((processRealtimeEvents cfg dry_run s (pre ++ rest)).1
       = (processRealtimeEvents cfg dry_run s rest).1 ∧
     (processRealtimeEvents cfg dry_run s (pre ++ rest)).2.stakeCmds
       = (processRealtimeEvents cfg dry_run s rest).2.stakeCmds ∧
     (processRealtimeEvents cfg dry_run s (pre ++ rest)).2.dbRows
       = (processRealtimeEvents cfg dry_run s rest).2.dbRows ∧
     (processRealtimeEvents cfg dry_run s (pre ++ rest)).2.tradeEmbeds
       = (processRealtimeEvents cfg dry_run s rest).2.tradeEmbeds ∧
     (processRealtimeEvents cfg dry_run s (pre ++ rest)).2.dryRunLogs
       = (processRealtimeEvents cfg dry_run s rest).2.dryRunLogs) ∧
    ((processPollObs cfg dry_run s netuid i hk v env2).1.paused = true ∧
     (processPollObs cfg dry_run s netuid i hk v env2).1.summary = s.summary ∧
     (processPollObs cfg dry_run s netuid i hk v env2).1.last_stakes
       = stakeSet s.last_stakes (netuid, hk) v ∧
     (processPollObs cfg dry_run s netuid i hk v env2).2.stakeCmds = [] ∧
     (processPollObs cfg dry_run s netuid i hk v env2).2.dbRows = [] ∧
     (processPollObs cfg dry_run s netuid i hk v env2).2.tradeEmbeds = [] ∧
     (processPollObs cfg dry_run s netuid i hk v env2).2.dryRunLogs = [] ∧
     processPollObs cfg dry_run ((processPollObs cfg dry_run s netuid i hk v env2).1)
         netuid i hk v env3
       = ((processPollObs cfg dry_run s netuid i hk v env2).1, Effects.empty)) := by
  constructor
  · induction pre with
    | nil => simp
    | cons head tail ih =>
      obtain ⟨ev, env⟩ := head
      have hb : env.balance < cfg.resume_balance := hlow (ev, env) (List.mem_cons_self _ _)
      have hstep := paused_step_drops cfg dry_run s ev env hp hb
      have ihh := ih (fun p hpmem => hlow p (List.mem_cons_of_mem _ hpmem))
      simp only [List.cons_append, processRealtimeEvents, hstep.1,
        Effects.append_stakeCmds, Effects.append_dbRows, Effects.append_tradeEmbeds,
        Effects.append_dryRunLogs, hstep.2.1, hstep.2.2.1, hstep.2.2.2.1,
        hstep.2.2.2.2, List.nil_append]
      exact ihh
  · have hg2 : governorCheck s.paused env2.balance cfg.low_balance cfg.resume_balance
        = { paused := true, proceed := false, pausedNote := false, resumedNote := false } := by
      simp [governorCheck, hp, not_le.mpr hb2]
    have hres : processPollObs cfg dry_run s netuid i hk v env2
        = ({ paused := true, last_stakes := stakeSet s.last_stakes (netuid, hk) v,
             summary := s.summary },
           govEffects cfg
             { paused := true, proceed := false, pausedNote := false, resumedNote := false }) := by
      simp [processPollObs, hlast, hdelta, hg2]
    rw [hres]
    refine ⟨rfl, rfl, rfl, rfl, rfl, rfl, rfl, ?_⟩
    norm_num [processPollObs, stakeGet_stakeSet, stakeSet_stakeSet, EPS]

/-- Witness for C5: starting paused with baseline 10 for `(7, "hkA")`, a
realtime intent arriving with balance 0 (below the resume threshold 2)
leaves no ledger row and no state change, and a poll intent with observed
stake 12 and balance 0 is likewise dropped with no ledger row while the
governor stays paused. -/
theorem paused_governor_drops_intents_witness :
    statePausedBase.paused = true ∧
    (processRealtimeEvents cfgFixed false statePausedBase
        ([(⟨"add", 7, "hkA", 2⟩, ⟨0, 0⟩)] ++ [])).2.dbRows
      = (processRealtimeEvents cfgFixed false statePausedBase []).2.dbRows ∧
    (processPollObs cfgFixed false statePausedBase 7 0 "hkA" 12 ⟨0, 0⟩).2.dbRows = [] ∧
    (processPollObs cfgFixed false statePausedBase 7 0 "hkA" 12 ⟨0, 0⟩).1.paused = true := by
  have h := paused_governor_drops_intents cfgFixed false statePausedBase
    [(⟨"add", 7, "hkA", 2⟩, ⟨0, 0⟩)] [] 7 0 "hkA" 10 12 ⟨0, 0⟩ ⟨0, 0⟩
    rfl
    (by intro p hmem
        rw [List.mem_singleton] at hmem
        subst hmem
        norm_num [cfgFixed])
    rfl
    (by norm_num [EPS])
    (by norm_num [cfgFixed])
  exact ⟨rfl, h.1.2.2.1, h.2.2.2.2.2.1, h.2.1⟩

/-! ## C6: balance trend of the first summary report -/

/-- C6 counterexample: a first report (no prior report recorded) at wallet
balance 5 reports trend 5, not 0: the source defaults the persisted
`last_balance` to 0.0 and reports `balance - 0.0`. -/
theorem first_report_trend_not_zero :
    send_summary_embed cfgFixed summary0 5 none
      = some ({ trades := 0, subnetsTouched := 0, total_add := 0, total_rem := 0,
                net := 0, balance := 5, trend := 5 }, 5) ∧
    ((5 : ℚ) ≠ 0) := by
  constructor
  · simp [send_summary_embed, cfgFixed, summary0,
      show ("shook" : String) ≠ "" from by decide]
  · norm_num

/-- C6 amended: when a summary report fires with no prior report recorded,
`last_balance` defaults to 0, so the reported trend equals the current
balance itself (`balance - 0`), which is 0 only when the balance is 0. -/
theorem first_report_trend_equals_balance (cfg : Config) (summary : Summary)
    (balance : ℚ) (hw : cfg.summary_webhook ≠ "") :
    (send_summary_embed cfg summary balance none).map (fun r => r.1.trend)
      = some balance := by
  simp [send_summary_embed, hw]

/-- Witness for the amended C6 at balance 7. -/
theorem first_report_trend_equals_balance_witness :
    (send_summary_embed cfgFixed summary0 7 none).map (fun r => r.1.trend) = some 7 :=
  first_report_trend_equals_balance cfgFixed summary0 7 (by decide)

/-! ## C10: transition-triggering intents -/

/-- Every non-dry-run pass through the execution tail writes exactly one
ledger row, whatever the amount (`log_trade_to_db` runs unconditionally
after `mirror_stake`). -/
theorem execIntent_dbRows_length (cfg : Config) (action : String) (netuid : Nat)
    (hk : String) (amount delta balance : ℚ) (summary : Summary) (rc : Int) :
    (execIntent cfg false action netuid hk amount delta balance summary rc).2.dbRows.length
      = 1 := by
  by_cases hle : amount ≤ 0 <;>
    simp [execIntent, mirror_stake, hle, Effects.empty, Effects.append_dbRows]

/-- C10 counterexample: under the accepted mis-configuration
`resume_balance (1) < low_balance (2)` with the governor ACTIVE, a
balance query of 1 fires the ACTIVE→PAUSED transition (pause
notification) and immediately the PAUSED→ACTIVE one, and the very intent
that triggered the pause is executed (its ledger row is written), not
dropped. -/
theorem pause_trigger_can_execute :
    governorCheck false 1 cfgBad.low_balance cfgBad.resume_balance
      = { paused := false, proceed := true, pausedNote := true, resumedNote := true } ∧
    (processRealtimeEvent cfgBad false state0 ⟨"add", 7, "hkA", 2⟩ ⟨1, 0⟩).2.dbRows.length
      = 1 := by
  constructor
  · norm_num [governorCheck, cfgBad, cfgFixed]
  · norm_num [processRealtimeEvent, execIntent, mirror_stake, governorCheck, govEffects,
      sizeAmount, cfgBad, cfgFixed, state0, summary0, Effects.empty, Effects.append_dbRows]

/-- C10 amended: under a configuration satisfying the documented contract
`low_balance ≤ resume_balance`, on either channel the intent whose
balance query triggers ACTIVE→PAUSED is itself dropped (no ledger row,
no tool invocation), while the intent whose balance query triggers
PAUSED→ACTIVE is itself executed in the same processing step (its ledger
row is written and the governor is active afterwards). -/
theorem governor_transitions_same_step (cfg : Config) (s s2 s3 s4 : LoopState)
    (ev ev2 : RtEvent) (env env2 env3 env4 : Env)
    (netuid i : Nat) (hk : String) (l3 v3 l4 v4 : ℚ)
    (hvalid : cfg.low_balance ≤ cfg.resume_balance)
    (h1 : s.paused = false) (hm1 : ev.hk ∈ cfg.hotkeys)
    (hb1 : env.balance < cfg.low_balance)
    (h2 : s2.paused = true) (hm2 : ev2.hk ∈ cfg.hotkeys)
    (hb2 : cfg.resume_balance ≤ env2.balance)
    (h3 : s3.paused = false) (hl3 : stakeGet s3.last_stakes (netuid, hk) = some l3)
    (hd3 : ¬ |v3 - l3| < EPS) (hb3 : env3.balance < cfg.low_balance)
    (h4 : s4.paused = true) (hl4 : stakeGet s4.last_stakes (netuid, hk) = some l4)
    (hd4 : ¬ |v4 - l4| < EPS) (hb4 : cfg.resume_balance ≤ env4.balance) :
    ((processRealtimeEvent cfg false s ev env).1.paused = true ∧
     (processRealtimeEvent cfg false s ev env).2.dbRows = [] ∧
     (processRealtimeEvent cfg false s ev env).2.stakeCmds = [] ∧
     (processRealtimeEvent cfg false s2 ev2 env2).1.paused = false ∧
     (processRealtimeEvent cfg false s2 ev2 env2).2.dbRows.length = 1) ∧
    ((processPollObs cfg false s3 netuid i hk v3 env3).1.paused = true ∧
     (processPollObs cfg false s3 netuid i hk v3 env3).2.dbRows = [] ∧
     (processPollObs cfg false s3 netuid i hk v3 env3).2.stakeCmds = [] ∧
     (processPollObs cfg false s4 netuid i hk v4 env4).1.paused = false ∧
     (processPollObs cfg false s4 netuid i hk v4 env4).2.dbRows.length = 1) := by
  have hnr : ¬ cfg.resume_balance ≤ env.balance :=
    not_le.mpr (lt_of_lt_of_le hb1 hvalid)
  have hnr3 : ¬ cfg.resume_balance ≤ env3.balance :=
    not_le.mpr (lt_of_lt_of_le hb3 hvalid)
  have hg1 : governorCheck s.paused env.balance cfg.low_balance cfg.resume_balance
      = { paused := true, proceed := false, pausedNote := true, resumedNote := false } := by
    simp [governorCheck, h1, hb1, hnr]
  have hg2 : governorCheck s2.paused env2.balance cfg.low_balance cfg.resume_balance
      = { paused := false, proceed := true, pausedNote := false, resumedNote := true } := by
    simp [governorCheck, h2, hb2]
  have hg3 : governorCheck s3.paused env3.balance cfg.low_balance cfg.resume_balance
      = { paused := true, proceed := false, pausedNote := true, resumedNote := false } := by
    simp [governorCheck, h3, hb3, hnr3]
  have hg4 : governorCheck s4.paused env4.balance cfg.low_balance cfg.resume_balance
      = { paused := false, proceed := true, pausedNote := false, resumedNote := true } := by
    simp [governorCheck, h4, hb4]
  refine ⟨⟨?_, ?_, ?_, ?_, ?_⟩, ?_, ?_, ?_, ?_, ?_⟩
  · simp [processRealtimeEvent, hm1, hg1]
  · simp [processRealtimeEvent, hm1, hg1, govEffects, Effects.empty]
  · simp [processRealtimeEvent, hm1, hg1, govEffects, Effects.empty]
  · simp [processRealtimeEvent, hm2, hg2]
  · simp [processRealtimeEvent, hm2, hg2, govEffects, Effects.empty,
      Effects.append_dbRows, execIntent_dbRows_length]
  · simp [processPollObs, hl3, hd3, hg3]
  · simp [processPollObs, hl3, hd3, hg3, govEffects, Effects.empty]
  · simp [processPollObs, hl3, hd3, hg3, govEffects, Effects.empty]
  · simp [processPollObs, hl4, hd4, hg4]
  · simp [processPollObs, hl4, hd4, hg4, govEffects, Effects.empty,
      Effects.append_dbRows, execIntent_dbRows_length]

/-- Witness for the amended C10: with thresholds low 1 ≤ resume 2, a
balance of 0 drops the pausing intent and a balance of 5 executes the
resuming intent in the same step, on the realtime channel (event delta 2
for the watched hotkey) and on the poll channel (stake 12 against
baseline 10 for key `(7, "hkA")`) alike. -/
theorem governor_transitions_same_step_witness :
    (processRealtimeEvent cfgFixed false state0 ⟨"add", 7, "hkA", 2⟩ ⟨0, 0⟩).2.dbRows = [] ∧
    (processRealtimeEvent cfgFixed false statePaused ⟨"add", 7, "hkA", 2⟩ ⟨5, 0⟩).2.dbRows.length
      = 1 ∧
    (processPollObs cfgFixed false stateActiveBase 7 0 "hkA" 12 ⟨0, 0⟩).2.dbRows = [] ∧
    (processPollObs cfgFixed false statePausedBase 7 0 "hkA" 12 ⟨5, 0⟩).2.dbRows.length = 1 := by
  have h := governor_transitions_same_step cfgFixed state0 statePaused stateActiveBase
    statePausedBase ⟨"add", 7, "hkA", 2⟩ ⟨"add", 7, "hkA", 2⟩ ⟨0, 0⟩ ⟨5, 0⟩ ⟨0, 0⟩ ⟨5, 0⟩
    7 0 "hkA" 10 12 10 12
    (by norm_num [cfgFixed]) rfl (by decide) (by norm_num [cfgFixed]) rfl (by decide)
    (by norm_num [cfgFixed]) rfl rfl (by norm_num [EPS]) (by norm_num [cfgFixed])
    rfl rfl (by norm_num [EPS]) (by norm_num [cfgFixed])
  exact ⟨h.1.2.1, h.1.2.2.2.2, h.2.2.1, h.2.2.2.2.2⟩

end Taoplicate
